import Mathlib

/-!
Shallow embedding of `dev-support/ranger-docker/scripts/create-ranger-services.py`.

The script builds eight hard-coded `RangerService` descriptors, and for each
one checks whether a service of that name already exists on the external
Ranger server (`service_not_exists`), creating it when absent.  The external
client (`ranger_client`) is modelled as an oracle `Client` giving, for each
service name, the behaviour of `get_service` (a returned optional service, or
a raised exception) and, for each descriptor, the behaviour of
`create_service` (success or a raised exception).  Runs are instrumented with
an event trace recording every lookup call, every creation call, and every
line printed to standard output.
-/

/-- A Python exception, as far as the script can distinguish them:
`json.JSONDecodeError` (caught specially inside `service_not_exists`) versus
any other exception; the payload is the exception text `str(e)`. -/
inductive Exn where
  | jsonDecode : String → Exn
  | other : String → Exn
deriving DecidableEq, Repr

/-- The text `str(e)` of an exception, as interpolated into printed messages. -/
def Exn.text : Exn → String
  | Exn.jsonDecode m => m
  | Exn.other m => m

/-- A Ranger service descriptor: the script constructs each one from a literal
dictionary with keys `name`, `type` and `configs`. -/
structure RangerService where
  name : String
  type : String
  configs : List (String × String)
deriving DecidableEq, Repr

/-- Behaviour of one `ranger_client.get_service(name)` call: either it returns
a value (`None` or a service object), or it raises an exception. -/
inductive GetServiceBehaviour where
  | returns : Option RangerService → GetServiceBehaviour
  | raises : Exn → GetServiceBehaviour
deriving DecidableEq, Repr

/-- Behaviour of one `ranger_client.create_service(service)` call: success or
a raised exception. -/
inductive CreateBehaviour where
  | ok : CreateBehaviour
  | raises : Exn → CreateBehaviour
deriving DecidableEq, Repr

/-- The external Ranger client, as the oracle the script consults: the
behaviour of the lookup operation for each service name, and of the creation
operation for each descriptor. -/
structure Client where
  getService : String → GetServiceBehaviour
  createService : RangerService → CreateBehaviour

/-- Observable events of a run: a lookup round trip, a creation round trip,
and a line printed to standard output. -/
inductive Event where
  | lookupCall : String → Event
  | createCall : RangerService → Event
  | printLine : String → Event
deriving DecidableEq, Repr

/-- The base URL the script passes to `RangerClient`. -/
def ranger_url : String := "http://ranger:6080"

/-- The credential pair the script passes to `RangerClient`. -/
def ranger_auth : String × String := ("admin", "rangerR0cks!")

/-- One `ranger_client.get_service(name)` call: one lookup round trip, whose
outcome the oracle dictates. -/
def get_service (c : Client) (name : String) :
    List Event × Except Exn (Option RangerService) :=
  ([Event.lookupCall name],
   match c.getService name with
   | GetServiceBehaviour.returns svc => Except.ok svc
   | GetServiceBehaviour.raises e => Except.error e)

/-- One `ranger_client.create_service(service)` call: one creation round trip,
whose outcome the oracle dictates. -/
def create_service (c : Client) (service : RangerService) :
    List Event × Except Exn Unit :=
  ([Event.createCall service],
   match c.createService service with
   | CreateBehaviour.ok => Except.ok ()
   | CreateBehaviour.raises e => Except.error e)

/-- The script's `service_not_exists(service)`:
tries `svc = ranger_client.get_service(service.name)`; on `JSONDecodeError`
returns `1`; otherwise returns `0 if svc is not None else 1`.  Any other
exception is not caught here. -/
def service_not_exists (c : Client) (service : RangerService) :
    List Event × Except Exn Nat :=
  match get_service c service.name with
  | (tr, Except.ok svc) => (tr, Except.ok (if svc.isSome then 0 else 1))
  | (tr, Except.error (Exn.jsonDecode _)) => (tr, Except.ok 1)
  | (tr, Except.error e) => (tr, Except.error e)

/-- The `hdfs` descriptor literal. -/
def hdfs : RangerService :=
  { name := "dev_hdfs", type := "hdfs",
    configs := [("username", "hdfs"), ("password", "hdfs"),
                ("fs.default.name", "hdfs://ranger-hadoop:9000"),
                ("hadoop.security.authentication", "simple"),
                ("hadoop.security.authorization", "true")] }

/-- The `hive` descriptor literal. -/
def hive : RangerService :=
  { name := "dev_hive", type := "hive",
    configs := [("username", "hive"), ("password", "hive"),
                ("jdbc.driverClassName", "org.apache.hive.jdbc.HiveDriver"),
                ("jdbc.url", "jdbc:hive2://ranger-hive:10000"),
                ("hadoop.security.authorization", "true")] }

/-- The `kafka` descriptor literal. -/
def kafka : RangerService :=
  { name := "dev_kafka", type := "kafka",
    configs := [("username", "kafka"), ("password", "kafka"),
                ("zookeeper.connect", "ranger-zk.example.com:2181")] }

/-- The `knox` descriptor literal. -/
def knox : RangerService :=
  { name := "dev_knox", type := "knox",
    configs := [("username", "knox"), ("password", "knox"),
                ("knox.url", "https://ranger-knox:8443")] }

/-- The `yarn` descriptor literal. -/
def yarn : RangerService :=
  { name := "dev_yarn", type := "yarn",
    configs := [("username", "yarn"), ("password", "yarn"),
                ("yarn.url", "http://ranger-hadoop:8088")] }

/-- The `hbase` descriptor literal. -/
def hbase : RangerService :=
  { name := "dev_hbase", type := "hbase",
    configs := [("username", "hbase"), ("password", "hbase"),
                ("hadoop.security.authentication", "simple"),
                ("hbase.security.authentication", "simple"),
                ("hadoop.security.authorization", "true"),
                ("hbase.zookeeper.property.clientPort", "2181"),
                ("hbase.zookeeper.quorum", "ranger-zk"),
                ("zookeeper.znode.parent", "/hbase")] }

/-- The `kms` descriptor literal. -/
def kms : RangerService :=
  { name := "dev_kms", type := "kms",
    configs := [("username", "keyadmin"), ("password", "rangerR0cks!"),
                ("provider", "http://ranger-kms:9292")] }

/-- The `trino` descriptor literal. -/
def trino : RangerService :=
  { name := "dev_trino", type := "trino",
    configs := [("username", "trino"), ("password", "trino"),
                ("jdbc.driverClassName", "io.trino.jdbc.TrinoDriver"),
                ("jdbc.url", "jdbc:trino://ranger-trino:8080")] }

/-- The catalog, in the order of the script's list literal:
`services = [hdfs, yarn, hive, hbase, kafka, knox, kms, trino]`. -/
def services : List RangerService :=
  [hdfs, yarn, hive, hbase, kafka, knox, kms, trino]

/-- The body of the script's `for service in services` loop:
`try: if service_not_exists(service): create_service(service); print created
except Exception as e: print exception` — returns the events of processing
the one descriptor. -/
def processService (c : Client) (service : RangerService) : List Event :=
  match service_not_exists c service with
  | (tr, Except.error e) =>
      tr ++ [Event.printLine ("An exception occured: " ++ e.text)]
  | (tr, Except.ok n) =>
      if n ≠ 0 then
        match create_service c service with
        | (tr2, Except.ok _) =>
            tr ++ tr2 ++ [Event.printLine (" " ++ service.name ++ " service created!")]
        | (tr2, Except.error e) =>
            tr ++ tr2 ++ [Event.printLine ("An exception occured: " ++ e.text)]
      else tr

/-- One whole run of the script: the loop over `services`, in order. -/
def runScript (c : Client) : List Event :=
  (services.map (processService c)).flatten

/-- The exception, if any, that the loop body's `except Exception` clause
catches while processing one descriptor. -/
def raisesDuring (c : Client) (service : RangerService) : Option Exn :=
  match service_not_exists c service with
  | (_, Except.error e) => some e
  | (_, Except.ok n) =>
      if n ≠ 0 then
        match create_service c service with
        | (_, Except.ok _) => none
        | (_, Except.error e) => some e
      else none

/-- Projection of an event to a creation call's descriptor. -/
def createdOf : Event → Option RangerService
  | Event.createCall s => some s
  | _ => none

/-- Projection of an event to a printed line. -/
def lineOf : Event → Option String
  | Event.printLine l => some l
  | _ => none

/-- Projection of an event to a lookup call's service name. -/
def lookupOf : Event → Option String
  | Event.lookupCall n => some n
  | _ => none

/-- The sequence of creation calls in a trace. -/
def creations (tr : List Event) : List RangerService := tr.filterMap createdOf

/-- The sequence of printed lines in a trace. -/
def outputs (tr : List Event) : List String := tr.filterMap lineOf

/-- The sequence of lookup calls in a trace. -/
def lookups (tr : List Event) : List String := tr.filterMap lookupOf

/-- A client modelling an empty server on which every creation succeeds. -/
def emptyOkClient : Client :=
  { getService := fun _ => GetServiceBehaviour.returns none,
    createService := fun _ => CreateBehaviour.ok }

/-- A client on which every lookup finds the queried service. -/
def presentClient : Client :=
  { getService := fun _ => GetServiceBehaviour.returns (some hdfs),
    createService := fun _ => CreateBehaviour.ok }

/-- A client whose lookups raise `JSONDecodeError`. -/
def jsonClient : Client :=
  { getService := fun _ => GetServiceBehaviour.raises (Exn.jsonDecode "Expecting value"),
    createService := fun _ => CreateBehaviour.ok }

/-- A client whose lookups raise a non-parse transport error. -/
def transportFailClient : Client :=
  { getService := fun _ => GetServiceBehaviour.raises (Exn.other "connection refused"),
    createService := fun _ => CreateBehaviour.ok }

/-- An empty server on which creating `dev_knox` fails with a server error. -/
def failKnoxClient : Client :=
  { getService := fun _ => GetServiceBehaviour.returns none,
    createService := fun s =>
      if s.name = "dev_knox" then CreateBehaviour.raises (Exn.other "server error")
      else CreateBehaviour.ok }

/-- An empty server on which every creation succeeds, but which behaves
differently from `emptyOkClient` on a name and a descriptor the script never
consults. -/
def emptyOkClientVariant : Client :=
  { getService := fun n =>
      if n = "some_other_service" then GetServiceBehaviour.raises (Exn.other "boom")
      else GetServiceBehaviour.returns none,
    createService := fun s =>
      if s.name = "some_other_service" then CreateBehaviour.raises (Exn.other "boom")
      else CreateBehaviour.ok }

/-- Every branch of the loop body issues exactly the one lookup of the
descriptor's name. -/
lemma filterMap_lookupOf_processService (c : Client) (s : RangerService) :
    List.filterMap lookupOf (processService c s) = [s.name] := by
  unfold processService service_not_exists get_service create_service
  cases c.getService s.name with
  | returns svc =>
      cases svc with
      | none => cases c.createService s <;> simp [lookupOf]
      | some v => simp [lookupOf]
  | raises e =>
      cases e with
      | jsonDecode m => cases c.createService s <;> simp [lookupOf]
      | other m => simp [lookupOf]

/-- The loop body only ever submits its own descriptor for creation. -/
lemma createCall_mem_processService (c : Client) (s t : RangerService)
    (h : Event.createCall t ∈ processService c s) : t = s := by
  revert h
  unfold processService service_not_exists get_service create_service
  cases c.getService s.name with
  | returns svc =>
      cases svc with
      | none => cases c.createService s <;> intro h <;> simp_all
      | some v => intro h; simp_all
  | raises e =>
      cases e with
      | jsonDecode m => cases c.createService s <;> intro h <;> simp_all
      | other m => intro h; simp_all

/-- When the loop body catches exception `e`, it prints the one exception
line carrying that exception's text. -/
lemma exn_line_mem_processService (c : Client) (s : RangerService) (e : Exn)
    (h : raisesDuring c s = some e) :
    Event.printLine ("An exception occured: " ++ Exn.text e) ∈ processService c s := by
  revert h
  unfold raisesDuring processService service_not_exists get_service create_service
  cases c.getService s.name with
  | returns svc =>
      cases svc with
      | none => cases c.createService s <;> intro h <;> simp_all [Exn.text]
      | some v => intro h; simp_all
  | raises ex =>
      cases ex with
      | jsonDecode m => cases c.createService s <;> intro h <;> simp_all [Exn.text]
      | other m =>
          intro h
          rw [Option.some_inj] at h
          subst h
          simp [Exn.text]

/-- The run's trace splits at any catalog position into the earlier
descriptors' traces, the one descriptor's trace, and the later descriptors'
traces. -/
lemma runScript_split (c : Client) (i : Nat) (hi : i < services.length) :
    runScript c =
      ((services.take i).map (processService c)).flatten
        ++ processService c (services.get ⟨i, hi⟩)
        ++ ((services.drop (i + 1)).map (processService c)).flatten := by
  conv_lhs => rw [runScript, ← List.take_append_drop i services]
  rw [List.drop_eq_getElem_cons hi, List.map_append, List.flatten_append,
    List.map_cons, List.flatten_cons, List.append_assoc]
  rfl

/-- C1: if processing descriptor `i` (its existence check or its creation
call) raises an exception, the `except` clause catches it, a message carrying
the exception text is printed, and the run's trace still contains the full
processing of every later descriptor, unchanged, after descriptor `i`'s
trace: no exception aborts the batch. -/
theorem failure_of_one_descriptor_does_not_abort_batch (c : Client) (i : Nat)
    (hi : i < services.length) (e : Exn)
    (h : raisesDuring c (services.get ⟨i, hi⟩) = some e) :
    Event.printLine ("An exception occured: " ++ Exn.text e)
        ∈ processService c (services.get ⟨i, hi⟩) ∧
    runScript c =
      ((services.take i).map (processService c)).flatten
        ++ processService c (services.get ⟨i, hi⟩)
        ++ ((services.drop (i + 1)).map (processService c)).flatten :=
  ⟨exn_line_mem_processService c (services.get ⟨i, hi⟩) e h, runScript_split c i hi⟩

/-- Witness for C1: on a client where creating `dev_knox` raises a server
error, descriptor 5 (`knox`) raises, its exception line is printed, and the
trace splits around it with descriptors 6 and 7 still processed. -/
theorem failure_of_one_descriptor_does_not_abort_batch_witness :
    raisesDuring failKnoxClient (services.get ⟨5, by decide⟩) =
        some (Exn.other "server error") ∧
    (Event.printLine ("An exception occured: " ++ Exn.text (Exn.other "server error"))
        ∈ processService failKnoxClient (services.get ⟨5, by decide⟩) ∧
      runScript failKnoxClient =
        ((services.take 5).map (processService failKnoxClient)).flatten
          ++ processService failKnoxClient (services.get ⟨5, by decide⟩)
          ++ ((services.drop 6).map (processService failKnoxClient)).flatten) :=
  ⟨by decide,
   failure_of_one_descriptor_does_not_abort_batch failKnoxClient 5 (by decide)
     (Exn.other "server error") (by decide)⟩

/-- C2: if the lookup for a catalog descriptor returns a non-null service
without raising, no creation call for that descriptor occurs anywhere in the
run. -/
theorem present_service_is_never_created (c : Client) (i : Nat)
    (hi : i < services.length) (svc : RangerService)
    (h : c.getService (services.get ⟨i, hi⟩).name =
        GetServiceBehaviour.returns (some svc)) :
    Event.createCall (services.get ⟨i, hi⟩) ∉ runScript c := by
  intro hmem
  rw [runScript] at hmem
  rw [List.mem_flatten] at hmem
  obtain ⟨l, hl, hmem⟩ := hmem
  rw [List.mem_map] at hl
  obtain ⟨s, _, rfl⟩ := hl
  have heq := createCall_mem_processService c s (services.get ⟨i, hi⟩) hmem
  subst heq
  revert hmem
  unfold processService service_not_exists get_service
  rw [h]
  simp

/-- Witness for C2: on a client that finds every queried name, the run never
issues a creation call for `hdfs` (catalog entry 0). -/
theorem present_service_is_never_created_witness :
    Event.createCall (services.get ⟨0, by decide⟩) ∉ runScript presentClient :=
  present_service_is_never_created presentClient 0 (by decide) hdfs rfl

/-- C3: if the lookup raises `JSONDecodeError`, `service_not_exists` answers
`1` (absent), a creation call for the descriptor is issued, and the answer is
the same as that of any client whose lookup returns `None` (not found). -/
theorem json_decode_failure_treated_as_absent (c : Client) (s : RangerService)
    (m : String)
    (h : c.getService s.name = GetServiceBehaviour.raises (Exn.jsonDecode m)) :
    (service_not_exists c s).2 = Except.ok 1 ∧
    Event.createCall s ∈ processService c s ∧
    ∀ c' : Client, c'.getService s.name = GetServiceBehaviour.returns none →
      (service_not_exists c s).2 = (service_not_exists c' s).2 := by
  have hval : (service_not_exists c s).2 = Except.ok 1 := by
    unfold service_not_exists get_service
    rw [h]
  refine ⟨hval, ?_, ?_⟩
  · unfold processService service_not_exists get_service create_service
    rw [h]
    cases c.createService s <;> simp
  · intro c' h'
    rw [hval]
    unfold service_not_exists get_service
    rw [h']
    rfl

/-- Witness for C3: on a client whose lookups raise `JSONDecodeError`, the
check for `hdfs` answers absent, a creation call is issued, and the answer
coincides with the empty-server client's. -/
theorem json_decode_failure_treated_as_absent_witness :
    (service_not_exists jsonClient hdfs).2 = Except.ok 1 ∧
    Event.createCall hdfs ∈ processService jsonClient hdfs ∧
    (service_not_exists jsonClient hdfs).2 =
      (service_not_exists emptyOkClient hdfs).2 :=
  ⟨(json_decode_failure_treated_as_absent jsonClient hdfs "Expecting value" rfl).1,
   (json_decode_failure_treated_as_absent jsonClient hdfs "Expecting value" rfl).2.1,
   (json_decode_failure_treated_as_absent jsonClient hdfs "Expecting value" rfl).2.2
     emptyOkClient rfl⟩

/-- C4: on a client where every lookup answers "not found" and every creation
succeeds, the run issues exactly the eight catalog creation calls in catalog
order and prints exactly the eight "created" lines in catalog order. -/
theorem empty_server_creates_all_eight (c : Client)
    (hget : ∀ n, c.getService n = GetServiceBehaviour.returns none)
    (hcreate : ∀ s, c.createService s = CreateBehaviour.ok) :
    creations (runScript c) = services ∧
    (creations (runScript c)).length = 8 ∧
    outputs (runScript c) =
      services.map (fun s => " " ++ s.name ++ " service created!") ∧
    (outputs (runScript c)).length = 8 := by
  have hbody : ∀ s : RangerService, processService c s =
      [Event.lookupCall s.name, Event.createCall s,
       Event.printLine (" " ++ s.name ++ " service created!")] := by
    intro s
    unfold processService service_not_exists get_service create_service
    rw [hget s.name, hcreate s]
    simp
  refine ⟨?_, ?_, ?_, ?_⟩ <;>
    simp [runScript, services, hbody, creations, outputs, createdOf, lineOf]

/-- Witness for C4: the concrete empty-server always-succeeding client. -/
theorem empty_server_creates_all_eight_witness :
    creations (runScript emptyOkClient) = services ∧
    (creations (runScript emptyOkClient)).length = 8 ∧
    outputs (runScript emptyOkClient) =
      services.map (fun s => " " ++ s.name ++ " service created!") ∧
    (outputs (runScript emptyOkClient)).length = 8 :=
  empty_server_creates_all_eight emptyOkClient (fun _ => rfl) (fun _ => rfl)

/-- Counterexample for C5: the catalog's names, in catalog order, are not
`dev_hdfs, dev_hive, dev_kafka, dev_knox, dev_yarn, dev_hbase, dev_kms,
dev_trino`; already the second entry is `dev_yarn`, not `dev_hive`. -/
theorem catalog_order_claim_false :
    services.map RangerService.name ≠
      ["dev_hdfs", "dev_hive", "dev_kafka", "dev_knox",
       "dev_yarn", "dev_hbase", "dev_kms", "dev_trino"] := by
  decide

/-- C5 (amended): the catalog is a fixed ordered sequence of exactly eight
descriptors whose hard-coded names, in catalog order, are `dev_hdfs,
dev_yarn, dev_hive, dev_hbase, dev_kafka, dev_knox, dev_kms, dev_trino`, and
this catalog order determines the order of registration attempts: every run
issues its lookups exactly in catalog-name order. -/
theorem catalog_is_eight_fixed_names_in_list_order :
    services.length = 8 ∧
    services.map RangerService.name =
      ["dev_hdfs", "dev_yarn", "dev_hive", "dev_hbase",
       "dev_kafka", "dev_knox", "dev_kms", "dev_trino"] ∧
    ∀ c : Client, lookups (runScript c) = services.map RangerService.name := by
  refine ⟨by decide, by decide, ?_⟩
  intro c
  simp [runScript, services, lookups, List.filterMap_append,
    filterMap_lookupOf_processService, hdfs, yarn, hive, hbase, kafka, knox,
    kms, trino]

/-- C6: the eight catalog entries have pairwise distinct names. -/
theorem catalog_names_pairwise_distinct :
    (services.map RangerService.name).Nodup := by
  decide

/-- Counterexample for C7: on the empty-server always-succeeding client the
line printed for a created service carries a leading space — the run prints
`" dev_hdfs service created!"` and never the claimed `"dev_hdfs service
created!"`. -/
theorem created_line_has_leading_space :
    " dev_hdfs service created!" ∈ outputs (runScript emptyOkClient) ∧
    "dev_hdfs service created!" ∉ outputs (runScript emptyOkClient) := by
  decide

/-- C7 (amended): for every successfully created service the loop body prints
exactly the one line `" <name> service created!"` (with a leading space), and
for every per-descriptor failure exactly the one line
`"An exception occured: <message>"`. -/
theorem per_descriptor_printed_lines (c : Client) (s : RangerService) :
    ((service_not_exists c s).2 = Except.ok 1 →
      c.createService s = CreateBehaviour.ok →
      outputs (processService c s) = [" " ++ s.name ++ " service created!"]) ∧
    ∀ e : Exn, raisesDuring c s = some e →
      outputs (processService c s) = ["An exception occured: " ++ Exn.text e] := by
  constructor
  · intro habsent hok
    revert habsent
    unfold processService service_not_exists get_service create_service
    rw [hok]
    cases c.getService s.name with
    | returns svc =>
        cases svc with
        | none => intro _; simp [outputs, lineOf]
        | some v => intro habsent; simp at habsent
    | raises ex =>
        cases ex with
        | jsonDecode m => intro _; simp [outputs, lineOf]
        | other m => intro habsent; simp at habsent
  · intro e h
    revert h
    unfold raisesDuring processService service_not_exists get_service create_service
    cases c.getService s.name with
    | returns svc =>
        cases svc with
        | none =>
            cases c.createService s <;> intro h <;>
              simp_all [outputs, lineOf, Exn.text]
        | some v => intro h; simp_all
    | raises ex =>
        cases ex with
        | jsonDecode m =>
            cases c.createService s <;> intro h <;>
              simp_all [outputs, lineOf, Exn.text]
        | other m =>
            intro h
            rw [Option.some_inj] at h
            subst h
            simp [outputs, lineOf, Exn.text]

/-- Witness for C7: the created line for `knox` on the empty-server client,
and the exception line for `knox` on a client whose lookups raise a
transport error. -/
theorem per_descriptor_printed_lines_witness :
    outputs (processService emptyOkClient knox) = [" dev_knox service created!"] ∧
    outputs (processService transportFailClient knox) =
      ["An exception occured: connection refused"] :=
  ⟨(per_descriptor_printed_lines emptyOkClient knox).1 rfl rfl,
   (per_descriptor_printed_lines transportFailClient knox).2
     (Exn.other "connection refused") rfl⟩

/-- C8: every call of `service_not_exists` issues exactly one lookup round
trip (its trace is the single lookup of the descriptor's name), and any
exception raised by the lookup other than `JSONDecodeError` propagates
unchanged to the caller. -/
theorem single_round_trip_and_propagation (c : Client) (s : RangerService) :
    (service_not_exists c s).1 = [Event.lookupCall s.name] ∧
    ∀ m : String,
      c.getService s.name = GetServiceBehaviour.raises (Exn.other m) →
      (service_not_exists c s).2 = Except.error (Exn.other m) := by
  constructor
  · unfold service_not_exists get_service
    cases c.getService s.name with
    | returns svc => rfl
    | raises e => cases e <;> rfl
  · intro m h
    unfold service_not_exists get_service
    rw [h]

/-- Witness for C8: a single lookup and unchanged propagation of the
connection-refused error on the transport-failure client. -/
theorem single_round_trip_and_propagation_witness :
    (service_not_exists transportFailClient hdfs).1 =
      [Event.lookupCall hdfs.name] ∧
    (service_not_exists transportFailClient hdfs).2 =
      Except.error (Exn.other "connection refused") :=
  ⟨(single_round_trip_and_propagation transportFailClient hdfs).1,
   (single_round_trip_and_propagation transportFailClient hdfs).2
     "connection refused" rfl⟩

/-- C9: when the lookup returns a non-null service without raising, the loop
body prints nothing for that descriptor — skipped services are silent. -/
theorem present_service_is_silent (c : Client) (s : RangerService)
    (svc : RangerService)
    (h : c.getService s.name = GetServiceBehaviour.returns (some svc)) :
    outputs (processService c s) = [] := by
  unfold outputs processService service_not_exists get_service
  rw [h]
  simp [lineOf]

/-- Witness for C9: on the client that finds every queried name, processing
`hdfs` prints nothing. -/
theorem present_service_is_silent_witness :
    outputs (processService presentClient hdfs) = [] :=
  present_service_is_silent presentClient hdfs hdfs rfl

/-- The loop body's trace depends on the client only through the one lookup
of the descriptor's name and the one creation of the descriptor. -/
lemma processService_congr (c₁ c₂ : Client) (s : RangerService)
    (hg : c₁.getService s.name = c₂.getService s.name)
    (hc : c₁.createService s = c₂.createService s) :
    processService c₁ s = processService c₂ s := by
  unfold processService service_not_exists get_service create_service
  rw [hg, hc]

/-- C10: the run is a deterministic function of the responses the script
observes — two clients that answer the eight catalog lookups identically and
give the eight catalog creations identical outcomes (but may differ anywhere
else) produce identical traces, hence identical creation-call sequences and
identical printed output. -/
theorem run_is_deterministic_in_responses (c₁ c₂ : Client)
    (hget : ∀ s ∈ services, c₁.getService s.name = c₂.getService s.name)
    (hcreate : ∀ s ∈ services, c₁.createService s = c₂.createService s) :
    runScript c₁ = runScript c₂ ∧
    creations (runScript c₁) = creations (runScript c₂) ∧
    outputs (runScript c₁) = outputs (runScript c₂) := by
  have h : runScript c₁ = runScript c₂ := by
    unfold runScript
    have hmap : services.map (processService c₁) = services.map (processService c₂) :=
      List.map_congr_left
        (fun s hs => processService_congr c₁ c₂ s (hget s hs) (hcreate s hs))
    rw [hmap]
  exact ⟨h, by rw [creations, creations, h], by rw [outputs, outputs, h]⟩

/-- Witness for C10: the empty-server client against a variant that answers
the catalog identically but raises on a name outside the catalog — their
runs coincide event for event. -/
theorem run_is_deterministic_in_responses_witness :
    runScript emptyOkClient = runScript emptyOkClientVariant ∧
    creations (runScript emptyOkClient) = creations (runScript emptyOkClientVariant) ∧
    outputs (runScript emptyOkClient) = outputs (runScript emptyOkClientVariant) :=
  run_is_deterministic_in_responses emptyOkClient emptyOkClientVariant
    (by decide) (by decide)
